import Mathlib

/-!
# Whitestones Capital backend schema — formal model

A shallow embedding of the repository's Supabase/Postgres schema (two
schema generations: the `users`-based one and the `profiles`-based one),
its CHECK constraints, its row-level-security (RLS) policies, the
`admin_dashboard_summary` view, and two client-side flows
(`Signup.handleSignup` and `AdminDashboard.checkAdminAccess`).

Conventions of the embedding:
* UUID columns are modelled as `Nat` identifiers.
* `NUMERIC(15,2)` / `NUMERIC(10,2)` monetary columns are modelled as `Int`
  (values in cents); SQL numerics are exact decimals, so `Int` at a fixed
  scale is faithful.
* Nullable `TEXT` columns are `Option String`; `CHECK (col IN (...))`
  constraints are membership tests over `String`.
* A table's CHECK constraints become a `Bool`-valued predicate on its row
  type; a row can exist in a table state only if the predicate holds.
* Timestamp columns are omitted: no claim below depends on them.
-/

namespace Whitestones

abbrev UserId := Nat

abbrev Money := Int

/-! ## Withdrawals table (both schema generations)

`net_amount NUMERIC(15,2) GENERATED ALWAYS AS (amount - fee) STORED`
appears identically in the `users`-based table (001) and the
`profiles`-based table (002).  A generated column cannot be assigned by
INSERT or UPDATE: the writable columns are separated into
`WithdrawalCols`, and every write path goes through `storeWithdrawal`,
which recomputes `net_amount`. -/

/-- The writable (non-generated) columns of a `withdrawals` row. -/
structure WithdrawalCols where
  user_id : UserId
  withdrawal_account_id : Option Nat
  amount : Money
  currency : String
  fee : Money
  status : String
  rejection_reason : Option String
  admin_notes : Option String
  reviewed_by : Option UserId
  transaction_reference : Option String
deriving DecidableEq, Repr

/-- A stored `withdrawals` row, including the generated `net_amount`. -/
structure WithdrawalRow where
  user_id : UserId
  withdrawal_account_id : Option Nat
  amount : Money
  currency : String
  fee : Money
  net_amount : Money
  status : String
  rejection_reason : Option String
  admin_notes : Option String
  reviewed_by : Option UserId
  transaction_reference : Option String
deriving DecidableEq, Repr

/-- Storing a row evaluates the generated column:
`net_amount GENERATED ALWAYS AS (amount - fee) STORED`. -/
def storeWithdrawal (c : WithdrawalCols) : WithdrawalRow :=
  { user_id := c.user_id
    withdrawal_account_id := c.withdrawal_account_id
    amount := c.amount
    currency := c.currency
    fee := c.fee
    net_amount := c.amount - c.fee
    status := c.status
    rejection_reason := c.rejection_reason
    admin_notes := c.admin_notes
    reviewed_by := c.reviewed_by
    transaction_reference := c.transaction_reference }

/-- The declared withdrawal statuses (identical in both generations):
`CHECK (status IN ('pending','approved','rejected','processing','completed','failed'))`. -/
def withdrawalStatuses : List String :=
  ["pending", "approved", "rejected", "processing", "completed", "failed"]

/-- CHECK constraints of the `users`-based `withdrawals` table (001,
lines 173–199): `withdrawal_account_id` NOT NULL, `amount > 0`,
`fee >= 0`, status in the declared set. -/
def withdrawals_check (r : WithdrawalRow) : Bool :=
  r.withdrawal_account_id.isSome &&
  decide (0 < r.amount) &&
  decide (0 ≤ r.fee) &&
  withdrawalStatuses.contains r.status

/-- CHECK constraints of the `profiles`-based `withdrawals` table (002,
lines 917–935): `amount > 0` and the status set.  The `fee` column there
is `NUMERIC(10,2) DEFAULT 0` with no CHECK, and `withdrawal_account_id`
is nullable. -/
def withdrawals_profiles_check (r : WithdrawalRow) : Bool :=
  decide (0 < r.amount) &&
  withdrawalStatuses.contains r.status

/-- States of a withdrawals table reachable through the schema: the table
starts empty; an INSERT stores a new row through `storeWithdrawal`; an
UPDATE rewrites the writable columns of one position, the stored result
again going through `storeWithdrawal` (the generated column is recomputed
on every write and can never be assigned directly).  The CHECK predicate
`chk` is a parameter so that both schema generations are instances. -/
inductive WithdrawalsReach (chk : WithdrawalRow → Bool) : List WithdrawalRow → Prop
  | empty : WithdrawalsReach chk []
  | insert {tbl : List WithdrawalRow} {c : WithdrawalCols} :
      chk (storeWithdrawal c) = true →
      WithdrawalsReach chk tbl →
      WithdrawalsReach chk (storeWithdrawal c :: tbl)
  | update {tbl : List WithdrawalRow} {c : WithdrawalCols} (i : Nat) :
      chk (storeWithdrawal c) = true →
      WithdrawalsReach chk tbl →
      WithdrawalsReach chk (tbl.set i (storeWithdrawal c))

/-! ## Users / profiles rows -/

/-- A `public.users` row (001, lines 18–28); the `profiles` table (002,
lines 791–801) carries the same role/status columns with the same CHECK
sets. -/
structure UserRow where
  id : UserId
  full_name : String
  email : String
  phone : Option String
  role : String
  kyc_status : String
  account_status : String
deriving DecidableEq, Repr

/-- `CHECK (role IN ('user','admin','support'))`,
`CHECK (kyc_status IN ('pending','approved','rejected','under_review'))`,
`CHECK (account_status IN ('active','suspended','closed'))`. -/
def users_check (u : UserRow) : Bool :=
  ["user", "admin", "support"].contains u.role &&
  ["pending", "approved", "rejected", "under_review"].contains u.kyc_status &&
  ["active", "suspended", "closed"].contains u.account_status

/-! ## KYC rows -/

/-- A `public.kyc_verifications` row (001, lines 39–70); the
`profiles`-based `kyc_documents` table (002) has the same status set. -/
structure KycRow where
  user_id : UserId
  id_type : String
  id_number : String
  full_name : String
  country : String
  front_id_url : Option String
  back_id_url : Option String
  selfie_url : Option String
  status : String
  rejection_reason : Option String
  admin_notes : Option String
  reviewed_by : Option UserId
deriving DecidableEq, Repr

/-- `CHECK (id_type IN ...)` and `CHECK (status IN ...)` of
`kyc_verifications`. -/
def kyc_check (r : KycRow) : Bool :=
  ["passport", "driver_license", "national_id", "government_id"].contains r.id_type &&
  ["pending", "under_review", "approved", "rejected"].contains r.status

/-! ## Deposits -/

/-- A `public.deposits` row (001, lines 136–161; 002, lines 893–908). -/
structure DepositRow where
  user_id : UserId
  amount : Money
  currency : String
  payment_method : String
  reference_number : Option String
  proof_image_url : Option String
  status : String
  rejection_reason : Option String
  admin_notes : Option String
  reviewed_by : Option UserId
deriving DecidableEq, Repr

/-- The declared deposit statuses (identical in both generations). -/
def depositStatuses : List String :=
  ["pending", "under_review", "approved", "rejected", "completed"]

/-- CHECK constraints of the `users`-based `deposits` table (001):
`amount > 0`, currency set, payment-method set, status set. -/
def deposits_check (r : DepositRow) : Bool :=
  decide (0 < r.amount) &&
  ["USD", "EUR", "GBP", "JPY", "CAD", "AUD", "CHF"].contains r.currency &&
  ["bank_transfer", "credit_card", "crypto", "wire"].contains r.payment_method &&
  depositStatuses.contains r.status

/-- CHECK constraints of the `profiles`-based `deposits` table (002):
only `amount > 0` and the status set; `currency` and `payment_method`
carry no CHECK there. -/
def deposits_profiles_check (r : DepositRow) : Bool :=
  decide (0 < r.amount) &&
  depositStatuses.contains r.status

/-! ## Account balances (profiles-based schema only, 002 lines 811–821) -/

/-- A `public.account_balances` row. -/
structure AccountBalanceRow where
  user_id : UserId
  main_balance : Money
  profit_balance : Money
  total_deposited : Money
  total_withdrawn : Money
deriving DecidableEq, Repr

/-- `CHECK (main_balance >= 0)`, `CHECK (profit_balance >= 0)`,
`CHECK (total_deposited >= 0)`, `CHECK (total_withdrawn >= 0)`. -/
def account_balances_check (r : AccountBalanceRow) : Bool :=
  decide (0 ≤ r.main_balance) &&
  decide (0 ≤ r.profit_balance) &&
  decide (0 ≤ r.total_deposited) &&
  decide (0 ≤ r.total_withdrawn)

/-! ## Withdrawal accounts -/

/-- A `public.withdrawal_accounts` row (001, lines 81–125; 002,
lines 857–885 — the column set and CHECK expression are identical in
both generations, so one row type and one predicate serve both). -/
structure WithdrawalAccountRow where
  user_id : UserId
  account_type : String
  bank_name : Option String
  account_holder_name : Option String
  account_number : Option String
  routing_number : Option String
  swift_code : Option String
  iban : Option String
  bic : Option String
  bank_country : Option String
  crypto_type : Option String
  crypto_address : Option String
  crypto_network : Option String
  paypal_email : Option String
deriving DecidableEq, Repr

/-- `crypto_type TEXT CHECK (crypto_type IN (...))` — a nullable column:
NULL passes the check. -/
def crypto_type_check : Option String → Bool
  | none => true
  | some t => ["bitcoin", "ethereum", "litecoin", "ripple", "solana", "usdc", "tether"].contains t

/-- The per-type CASE constraint of `withdrawal_accounts`:
bank needs `account_number` and `account_holder_name`, crypto needs
`crypto_address` and `crypto_type`, paypal needs `paypal_email`, and
every other `account_type` hits `ELSE FALSE`. -/
def withdrawal_accounts_case_check (r : WithdrawalAccountRow) : Bool :=
  if r.account_type = "bank" then
    r.account_number.isSome && r.account_holder_name.isSome
  else if r.account_type = "crypto" then
    r.crypto_address.isSome && r.crypto_type.isSome
  else if r.account_type = "paypal" then
    r.paypal_email.isSome
  else
    false

/-- All CHECK constraints of `withdrawal_accounts`:
`CHECK (account_type IN ('bank','crypto','paypal'))`, the `crypto_type`
enum check, and the per-type CASE constraint. -/
def withdrawal_accounts_check (r : WithdrawalAccountRow) : Bool :=
  ["bank", "crypto", "paypal"].contains r.account_type &&
  crypto_type_check r.crypto_type &&
  withdrawal_accounts_case_check r

/-! ## Database state and RLS policies (users-based schema, 001)

RLS policies are permissive: a SELECT returns the rows for which the
disjunction of the applicable policies' USING clauses holds; an UPDATE is
permitted when some USING clause accepts the old row and some WITH CHECK
clause accepts the new row; an INSERT is permitted when some WITH CHECK
clause accepts the new row.  `auth.uid()` is the caller's identity. -/

/-- The database state visible to the policies of the users-based schema. -/
structure Db where
  users : List UserRow
  kyc_verifications : List KycRow
  deposits : List DepositRow
  withdrawals : List WithdrawalRow
deriving Repr

/-- The admin lookup used by every `admins_*` policy:
`EXISTS (SELECT 1 FROM public.users WHERE id = auth.uid() AND role = 'admin')`. -/
def isAdminUid (db : Db) (uid : UserId) : Bool :=
  db.users.any (fun u => u.id == uid && u.role == "admin")

/-- `SELECT role FROM public.users WHERE id = auth.uid()` (the subquery of
the `users_update_own` WITH CHECK). -/
def roleOfUid (db : Db) (uid : UserId) : Option String :=
  (db.users.find? (fun u => u.id == uid)).map (fun u => u.role)

/-! ### users table policies (001, lines 365–393) -/

/-- `users_read_own` USING / `admins_read_all_users` USING, disjoined. -/
def users_select_allowed (db : Db) (uid : UserId) (r : UserRow) : Bool :=
  (uid == r.id) || isAdminUid db uid

/-- `users_update_own` USING: `auth.uid() = id` (the only UPDATE policy
on `public.users`). -/
def users_update_own_using (_db : Db) (uid : UserId) (old : UserRow) : Bool :=
  uid == old.id

/-- `users_update_own` WITH CHECK:
`auth.uid() = id AND role = (SELECT role FROM public.users WHERE id = auth.uid())`. -/
def users_update_own_with_check (db : Db) (uid : UserId) (new : UserRow) : Bool :=
  uid == new.id && (roleOfUid db uid == some new.role)

/-- An UPDATE step on a `users` row: old row accepted by some USING
clause, new row accepted by some WITH CHECK clause. -/
def users_update_allowed (db : Db) (uid : UserId) (old new : UserRow) : Bool :=
  users_update_own_using db uid old && users_update_own_with_check db uid new

/-! ### kyc_verifications policies (001, lines 396–449) -/

/-- `users_read_own_kyc` USING / `admins_read_all_kyc` USING, disjoined. -/
def kyc_select_allowed (db : Db) (uid : UserId) (r : KycRow) : Bool :=
  (uid == r.user_id) || isAdminUid db uid

/-- The rows a SELECT on `kyc_verifications` returns to caller `uid`. -/
def select_kyc (db : Db) (uid : UserId) : List KycRow :=
  db.kyc_verifications.filter (kyc_select_allowed db uid)

/-- USING side of the two UPDATE policies on `kyc_verifications`:
`users_update_own_kyc` (`auth.uid() = user_id AND status = 'pending'`)
or `admins_update_kyc` (admin lookup). -/
def kyc_update_using (db : Db) (uid : UserId) (old : KycRow) : Bool :=
  (uid == old.user_id && old.status == "pending") || isAdminUid db uid

/-- WITH CHECK side of the two UPDATE policies on `kyc_verifications`. -/
def kyc_update_with_check (db : Db) (uid : UserId) (new : KycRow) : Bool :=
  (uid == new.user_id) || isAdminUid db uid

/-- An UPDATE step on a `kyc_verifications` row. -/
def kyc_update_allowed (db : Db) (uid : UserId) (old new : KycRow) : Bool :=
  kyc_update_using db uid old && kyc_update_with_check db uid new

/-! ### deposits policies (001, lines 497–542) -/

/-- `users_read_own_deposits` USING / `admins_read_all_deposits` USING. -/
def deposits_select_allowed (db : Db) (uid : UserId) (r : DepositRow) : Bool :=
  (uid == r.user_id) || isAdminUid db uid

/-- The rows a SELECT on `deposits` returns to caller `uid`. -/
def select_deposits (db : Db) (uid : UserId) : List DepositRow :=
  db.deposits.filter (deposits_select_allowed db uid)

/-- `users_insert_own_deposits` WITH CHECK:
`auth.uid() = user_id AND status = 'pending'` — the only INSERT policy
on `deposits`. -/
def deposits_insert_allowed (_db : Db) (uid : UserId) (new : DepositRow) : Bool :=
  uid == new.user_id && new.status == "pending"

/-- `admins_update_deposits` (the only UPDATE policy on `deposits`):
USING and WITH CHECK are both the admin lookup. -/
def deposits_update_allowed (db : Db) (uid : UserId) (_old _new : DepositRow) : Bool :=
  isAdminUid db uid && isAdminUid db uid

/-! ### withdrawals policies (001, lines 616–662) -/

/-- `users_read_own_withdrawals` USING / `admins_read_all_withdrawals` USING. -/
def withdrawals_select_allowed (db : Db) (uid : UserId) (r : WithdrawalRow) : Bool :=
  (uid == r.user_id) || isAdminUid db uid

/-- The rows a SELECT on `withdrawals` returns to caller `uid`. -/
def select_withdrawals (db : Db) (uid : UserId) : List WithdrawalRow :=
  db.withdrawals.filter (withdrawals_select_allowed db uid)

/-- `users_insert_own_withdrawals` WITH CHECK:
`auth.uid() = user_id AND status = 'pending'` — the only INSERT policy
on `withdrawals`. -/
def withdrawals_insert_allowed (_db : Db) (uid : UserId) (new : WithdrawalRow) : Bool :=
  uid == new.user_id && new.status == "pending"

/-- `admins_update_withdrawals` (the only UPDATE policy on `withdrawals`):
USING and WITH CHECK are both the admin lookup. -/
def withdrawals_update_allowed (db : Db) (uid : UserId) (_old _new : WithdrawalRow) : Bool :=
  isAdminUid db uid && isAdminUid db uid

/-! ## admin_dashboard_summary view (001, lines 757–765) -/

/-- The seven scalar fields of the view. -/
structure DashboardSummary where
  total_users : Nat
  kyc_approved_users : Nat
  pending_kyc : Nat
  pending_deposits : Nat
  pending_withdrawals : Nat
  total_deposits : Money
  total_withdrawals : Money
deriving DecidableEq, Repr

/-- `CREATE OR REPLACE VIEW public.admin_dashboard_summary`: seven
uncorrelated scalar subqueries, recomputed from the current table
contents on each read. -/
def admin_dashboard_summary (db : Db) : DashboardSummary :=
  { total_users := db.users.countP (fun u => u.role == "user")
    kyc_approved_users := db.users.countP (fun u => u.kyc_status == "approved")
    pending_kyc := db.kyc_verifications.countP (fun k => k.status == "pending")
    pending_deposits := db.deposits.countP (fun d => d.status == "pending")
    pending_withdrawals := db.withdrawals.countP (fun w => w.status == "pending")
    total_deposits :=
      ((db.deposits.filter (fun d => d.status == "completed")).map (fun d => d.amount)).sum
    total_withdrawals :=
      ((db.withdrawals.filter (fun w => w.status == "completed")).map (fun w => w.amount)).sum }

/-! ## AdminDashboard.checkAdminAccess (src/pages/AdminDashboard.tsx, 48–76)

The flow depends on two remote results: `supabase.auth.getUser()` (a
possibly-null user) and `supabase.rpc('has_role', ...)` (the `roleData`
field of the response; the client surfaces rpc failures as a null `data`,
modelled as `none`).  The embedding records the externally visible
effects of one run. -/

/-- The authenticated user object; only `id` is consumed by the flow. -/
structure AuthUser where
  id : UserId
deriving DecidableEq, Repr

/-- Observable outcome of one `checkAdminAccess` run. -/
structure AdminAccessOutcome where
  navigatedTo : Option String
  signedOut : Bool
  unauthorizedToast : Bool
  isAdmin : Bool
  fetchedStats : Bool
deriving DecidableEq, Repr

/-- `checkAdminAccess`: no user → navigate to `/admin/login`; a user with
`roleData` not truthy (null or false) → error toast, `signOut`, navigate
to `/admin/login`; `roleData` true → `setIsAdmin(true)` and `fetchStats()`. -/
def checkAdminAccess (userRes : Option AuthUser) (roleData : Option Bool) :
    AdminAccessOutcome :=
  match userRes with
  | none =>
      { navigatedTo := some "/admin/login", signedOut := false,
        unauthorizedToast := false, isAdmin := false, fetchedStats := false }
  | some _ =>
      if roleData == some true then
        { navigatedTo := none, signedOut := false,
          unauthorizedToast := false, isAdmin := true, fetchedStats := true }
      else
        { navigatedTo := some "/admin/login", signedOut := true,
          unauthorizedToast := true, isAdmin := false, fetchedStats := false }

/-! ## Signup.handleSignup (the Signup page in 002's bundle, 1061–1128)

The handler's external effects depend on: the terms checkbox, the result
of `supabase.auth.signUp` (an error, or a possibly-null `data.user`), the
referral code text, the referral lookup (`maybeSingle`: a thrown error or
a possibly-null referrer), and the referral insert (a thrown error or
success).  Failures inside the referral block are caught by the inner
`try/catch` and logged with `console.error`. -/

/-- The `referralCode.trim()` call of the handler: whitespace stripped
from both ends, modelled with structurally recursive list operations so
that concrete inputs evaluate. -/
def jsTrim (s : String) : String :=
  String.mk (((s.data.dropWhile Char.isWhitespace).reverse.dropWhile
    Char.isWhitespace).reverse)

/-- Observable outcome of one `handleSignup` run. -/
structure SignupOutcome where
  termsErrorToast : Bool
  authSignUpCalled : Bool
  profileUpdateCalled : Bool
  referralLookupCalled : Bool
  referralInsertCalled : Bool
  referralErrorLogged : Bool
  successToast : Bool
  errorToast : Option String
  navigatedTo : Option String
deriving DecidableEq, Repr

/-- The outcome in which nothing has happened yet. -/
def SignupOutcome.start : SignupOutcome :=
  { termsErrorToast := false, authSignUpCalled := false,
    profileUpdateCalled := false, referralLookupCalled := false,
    referralInsertCalled := false, referralErrorLogged := false,
    successToast := false, errorToast := none, navigatedTo := none }

/-- `handleSignup`: early return with a terms toast when the checkbox is
unchecked; otherwise signUp, and on success with a non-null user: profile
update, the guarded referral block (errors logged only), success toast,
navigate to `/login`.  A signUp error reaches the outer catch and shows
`error.message`; a null `data.user` without error falls through with no
toast or navigation. -/
def handleSignup
    (agreedToTerms : Bool)
    (authResult : Except String (Option AuthUser))
    (referralCode : String)
    (referralLookup : Except String (Option UserId))
    (referralInsert : Except String Unit) : SignupOutcome :=
  if !agreedToTerms then
    { SignupOutcome.start with termsErrorToast := true }
  else
    match authResult with
    | .error msg =>
        { SignupOutcome.start with authSignUpCalled := true, errorToast := some msg }
    | .ok none =>
        { SignupOutcome.start with authSignUpCalled := true }
    | .ok (some _) =>
        let afterProfile : SignupOutcome :=
          { SignupOutcome.start with authSignUpCalled := true, profileUpdateCalled := true }
        let afterReferral : SignupOutcome :=
          if jsTrim referralCode ≠ "" then
            match referralLookup with
            | .error _ =>
                { afterProfile with referralLookupCalled := true, referralErrorLogged := true }
            | .ok none =>
                { afterProfile with referralLookupCalled := true }
            | .ok (some _) =>
                match referralInsert with
                | .error _ =>
                    { afterProfile with
                      referralLookupCalled := true
                      referralInsertCalled := true
                      referralErrorLogged := true }
                | .ok _ =>
                    { afterProfile with
                      referralLookupCalled := true
                      referralInsertCalled := true }
          else
            afterProfile
        { afterReferral with successToast := true, navigatedTo := some "/login" }

/-! ## Sample data used by concrete witnesses -/

/-- An admin account holder. -/
def sampleAdmin : UserRow :=
  { id := 1, full_name := "Ada Admin", email := "ada@example.com", phone := none,
    role := "admin", kyc_status := "approved", account_status := "active" }

/-- An ordinary (non-admin) account holder. -/
def sampleUser : UserRow :=
  { id := 2, full_name := "Uma User", email := "uma@example.com", phone := none,
    role := "user", kyc_status := "pending", account_status := "active" }

/-- A pending deposit of the ordinary user. -/
def sampleDeposit : DepositRow :=
  { user_id := 2, amount := 5000, currency := "USD", payment_method := "wire",
    reference_number := none, proof_image_url := none, status := "pending",
    rejection_reason := none, admin_notes := none, reviewed_by := none }

/-- A pending KYC submission of the ordinary user. -/
def sampleKyc : KycRow :=
  { user_id := 2, id_type := "passport", id_number := "P123", full_name := "Uma User",
    country := "DE", front_id_url := none, back_id_url := none, selfie_url := none,
    status := "pending", rejection_reason := none, admin_notes := none, reviewed_by := none }

/-- Writable columns of a withdrawal request of the ordinary user. -/
def sampleWithdrawalCols : WithdrawalCols :=
  { user_id := 2, withdrawal_account_id := some 7, amount := 1000, currency := "USD",
    fee := 100, status := "pending", rejection_reason := none, admin_notes := none,
    reviewed_by := none, transaction_reference := none }

/-- A small database: one admin, one user, one row in each financial table. -/
def sampleDb : Db :=
  { users := [sampleAdmin, sampleUser]
    kyc_verifications := [sampleKyc]
    deposits := [sampleDeposit]
    withdrawals := [storeWithdrawal sampleWithdrawalCols] }

/-- `sampleUser` after an attempted self-service KYC approval. -/
def sampleUserSelfApproved : UserRow :=
  { sampleUser with kyc_status := "approved" }

/-- Writable withdrawal columns carrying a negative fee (satisfies every
constraint the profiles-based `withdrawals` table declares). -/
def negativeFeeCols : WithdrawalCols :=
  { user_id := 2, withdrawal_account_id := none, amount := 1000, currency := "USD",
    fee := -100, status := "pending", rejection_reason := none, admin_notes := none,
    reviewed_by := none, transaction_reference := none }

/-- A crypto withdrawal account with no crypto address. -/
def cryptoNoAddress : WithdrawalAccountRow :=
  { user_id := 2, account_type := "crypto", bank_name := none,
    account_holder_name := none, account_number := none, routing_number := none,
    swift_code := none, iban := none, bic := none, bank_country := none,
    crypto_type := some "bitcoin", crypto_address := none, crypto_network := none,
    paypal_email := none }

/-- A well-formed bank withdrawal account. -/
def bankAccountOk : WithdrawalAccountRow :=
  { user_id := 2, account_type := "bank", bank_name := some "Bank",
    account_holder_name := some "Uma User", account_number := some "123",
    routing_number := none, swift_code := none, iban := none, bic := none,
    bank_country := none, crypto_type := none, crypto_address := none,
    crypto_network := none, paypal_email := none }

/-! ## Theorems -/

/-- Every row of a reachable withdrawals table went through
`storeWithdrawal`, so its generated column satisfies the defining
equation, for any CHECK predicate. -/
theorem WithdrawalsReach.net_amount_eq {chk : WithdrawalRow → Bool}
    {tbl : List WithdrawalRow} (h : WithdrawalsReach chk tbl) :
    ∀ r ∈ tbl, r.net_amount = r.amount - r.fee := by
  induction h with
  | empty => intro r hr; cases hr
  | insert _ _ ih =>
      intro r hr
      rcases List.mem_cons.mp hr with h1 | h1
      · subst h1; rfl
      · exact ih r h1
  | update i _ _ ih =>
      intro r hr
      rcases List.mem_or_eq_of_mem_set hr with h1 | h1
      · exact ih r h1
      · subst h1; rfl

/-- C1: In both schema generations, a withdrawal row's `net_amount`
equals `amount - fee` after insertion and after any update to `amount`
or `fee`; the generated column cannot be set to any other value (every
write path recomputes it through `storeWithdrawal`). -/
theorem withdrawals_net_amount_generated (tbl : List WithdrawalRow) :
    (WithdrawalsReach withdrawals_check tbl →
        ∀ r ∈ tbl, r.net_amount = r.amount - r.fee) ∧
    (WithdrawalsReach withdrawals_profiles_check tbl →
        ∀ r ∈ tbl, r.net_amount = r.amount - r.fee) :=
  ⟨fun h => h.net_amount_eq, fun h => h.net_amount_eq⟩

/-- Witness for C1: a table holding one freshly inserted sample
withdrawal is reachable in the users-based schema, and its row satisfies
`net_amount = amount - fee`. -/
theorem withdrawals_net_amount_generated_witness :
    (storeWithdrawal sampleWithdrawalCols).net_amount =
      (storeWithdrawal sampleWithdrawalCols).amount -
        (storeWithdrawal sampleWithdrawalCols).fee :=
  (withdrawals_net_amount_generated [storeWithdrawal sampleWithdrawalCols]).1
    (WithdrawalsReach.insert (by decide) WithdrawalsReach.empty)
    (storeWithdrawal sampleWithdrawalCols) (List.Mem.head _)

/-- C2: Under the users-based schema's RLS policies, a non-admin caller's
SELECT on deposits, withdrawals, or KYC returns zero rows belonging to
any other user; a caller whose `users` row has role `admin` reads every
row of those tables and is permitted every update on them. -/
theorem rls_isolation_and_admin_access (db : Db) (uid : UserId) :
    (isAdminUid db uid = false →
        (select_deposits db uid).countP (fun r => r.user_id != uid) = 0 ∧
        (select_withdrawals db uid).countP (fun r => r.user_id != uid) = 0 ∧
        (select_kyc db uid).countP (fun r => r.user_id != uid) = 0) ∧
    (isAdminUid db uid = true →
        select_deposits db uid = db.deposits ∧
        select_withdrawals db uid = db.withdrawals ∧
        select_kyc db uid = db.kyc_verifications ∧
        (∀ old new, deposits_update_allowed db uid old new = true) ∧
        (∀ old new, withdrawals_update_allowed db uid old new = true) ∧
        (∀ old new, kyc_update_allowed db uid old new = true)) := by
  constructor
  · intro hna
    refine ⟨?_, ?_, ?_⟩
    · rw [List.countP_eq_zero]
      intro r hr
      have h2 := (List.mem_filter.mp hr).2
      simp only [deposits_select_allowed, hna, Bool.or_false, beq_iff_eq] at h2
      simp [← h2]
    · rw [List.countP_eq_zero]
      intro r hr
      have h2 := (List.mem_filter.mp hr).2
      simp only [withdrawals_select_allowed, hna, Bool.or_false, beq_iff_eq] at h2
      simp [← h2]
    · rw [List.countP_eq_zero]
      intro r hr
      have h2 := (List.mem_filter.mp hr).2
      simp only [kyc_select_allowed, hna, Bool.or_false, beq_iff_eq] at h2
      simp [← h2]
  · intro ha
    refine ⟨?_, ?_, ?_, ?_, ?_, ?_⟩
    · simp [select_deposits, deposits_select_allowed, ha]
    · simp [select_withdrawals, withdrawals_select_allowed, ha]
    · simp [select_kyc, kyc_select_allowed, ha]
    · intro old new; simp [deposits_update_allowed, ha]
    · intro old new; simp [withdrawals_update_allowed, ha]
    · intro old new
      simp [kyc_update_allowed, kyc_update_using, kyc_update_with_check, ha]

/-- Witness for C2: in the sample database, the non-admin caller `3`
sees zero foreign deposit rows, while the admin caller `1` sees every
deposit and may update the sample deposit. -/
theorem rls_isolation_and_admin_access_witness :
    (select_deposits sampleDb 3).countP (fun r => r.user_id != 3) = 0 ∧
    select_deposits sampleDb 1 = sampleDb.deposits ∧
    deposits_update_allowed sampleDb 1 sampleDeposit sampleDeposit = true :=
  ⟨((rls_isolation_and_admin_access sampleDb 3).1 (by decide)).1,
   ((rls_isolation_and_admin_access sampleDb 1).2 (by decide)).1,
   ((rls_isolation_and_admin_access sampleDb 1).2 (by decide)).2.2.2.1
     sampleDeposit sampleDeposit⟩

/-- C3: The only INSERT policies on `deposits` and `withdrawals`
(`users_insert_own_deposits`, `users_insert_own_withdrawals`) reject any
row whose status is not `pending` — in particular for non-admin callers —
and every permitted insert starts at status `pending`. -/
theorem insert_policies_require_pending (db : Db) (uid : UserId)
    (d : DepositRow) (w : WithdrawalRow) :
    (isAdminUid db uid = false → d.status ≠ "pending" →
        deposits_insert_allowed db uid d = false) ∧
    (isAdminUid db uid = false → w.status ≠ "pending" →
        withdrawals_insert_allowed db uid w = false) ∧
    (deposits_insert_allowed db uid d = true → d.status = "pending") ∧
    (withdrawals_insert_allowed db uid w = true → w.status = "pending") := by
  refine ⟨?_, ?_, ?_, ?_⟩
  · intro _ hs
    have hb : (d.status == "pending") = false := beq_eq_false_iff_ne.mpr hs
    simp [deposits_insert_allowed, hb]
  · intro _ hs
    have hb : (w.status == "pending") = false := beq_eq_false_iff_ne.mpr hs
    simp [withdrawals_insert_allowed, hb]
  · intro h
    simp only [deposits_insert_allowed, Bool.and_eq_true, beq_iff_eq] at h
    exact h.2
  · intro h
    simp only [withdrawals_insert_allowed, Bool.and_eq_true, beq_iff_eq] at h
    exact h.2

/-- Witness for C3: the non-admin caller `2` cannot insert an
already-approved copy of the sample deposit, and its permitted pending
insert indeed carries status `pending`. -/
theorem insert_policies_require_pending_witness :
    deposits_insert_allowed sampleDb 2 { sampleDeposit with status := "approved" } = false ∧
    withdrawals_insert_allowed sampleDb 2
      (storeWithdrawal { sampleWithdrawalCols with status := "completed" }) = false ∧
    sampleDeposit.status = "pending" :=
  ⟨(insert_policies_require_pending sampleDb 2
      { sampleDeposit with status := "approved" }
      (storeWithdrawal sampleWithdrawalCols)).1 (by decide) (by decide),
   (insert_policies_require_pending sampleDb 2 sampleDeposit
      (storeWithdrawal { sampleWithdrawalCols with status := "completed" })).2.1
      (by decide) (by decide),
   (insert_policies_require_pending sampleDb 2 sampleDeposit
      (storeWithdrawal sampleWithdrawalCols)).2.2.1 (by decide)⟩

/-- C4 (against the claim): the single UPDATE policy on `public.users`,
`users_update_own`, pins only `role` in its WITH CHECK; the non-admin
account holder `2` may update their own row and flip `kyc_status` from
`pending` to `approved`.  The policy's own comment says users can update
only their name and phone. -/
theorem users_update_own_permits_kyc_status_change :
    isAdminUid sampleDb 2 = false ∧
    users_update_allowed sampleDb 2 sampleUser sampleUserSelfApproved = true ∧
    sampleUser.kyc_status = "pending" ∧
    sampleUserSelfApproved.kyc_status = "approved" := by decide

/-- C5 (against the claim): the profiles-based `withdrawals` table
declares `fee NUMERIC(10,2) DEFAULT 0` with no CHECK, so a stored row
with a negative fee satisfies every constraint that table declares. -/
theorem withdrawals_profiles_negative_fee_allowed :
    withdrawals_profiles_check (storeWithdrawal negativeFeeCols) = true ∧
    (storeWithdrawal negativeFeeCols).fee < 0 := by decide

/-- C5 (amended): amounts are strictly positive and balance columns
non-negative in both schema generations, and the users-based schema also
enforces `fee >= 0`; the profiles-based `withdrawals` table constrains
only the amount, not the fee. -/
theorem monetary_check_bounds :
    (∀ r : DepositRow, deposits_check r = true → 0 < r.amount) ∧
    (∀ r : DepositRow, deposits_profiles_check r = true → 0 < r.amount) ∧
    (∀ r : WithdrawalRow, withdrawals_check r = true → 0 < r.amount ∧ 0 ≤ r.fee) ∧
    (∀ r : WithdrawalRow, withdrawals_profiles_check r = true → 0 < r.amount) ∧
    (∀ r : AccountBalanceRow, account_balances_check r = true →
        0 ≤ r.main_balance ∧ 0 ≤ r.profit_balance ∧
        0 ≤ r.total_deposited ∧ 0 ≤ r.total_withdrawn) := by
  refine ⟨?_, ?_, ?_, ?_, ?_⟩
  · intro r h
    simp only [deposits_check, Bool.and_eq_true, decide_eq_true_eq] at h
    exact h.1.1.1
  · intro r h
    simp only [deposits_profiles_check, Bool.and_eq_true, decide_eq_true_eq] at h
    exact h.1
  · intro r h
    simp only [withdrawals_check, Bool.and_eq_true, decide_eq_true_eq] at h
    exact ⟨h.1.1.2, h.1.2⟩
  · intro r h
    simp only [withdrawals_profiles_check, Bool.and_eq_true, decide_eq_true_eq] at h
    exact h.1
  · intro r h
    simp only [account_balances_check, Bool.and_eq_true, decide_eq_true_eq] at h
    exact ⟨h.1.1.1, h.1.1.2, h.1.2, h.2⟩

/-- Witness for the amended C5: the sample deposit and withdrawal pass
their checks with positive amount and non-negative fee, and a zeroed
balance row passes the balance checks. -/
theorem monetary_check_bounds_witness :
    0 < sampleDeposit.amount ∧
    (0 < (storeWithdrawal sampleWithdrawalCols).amount ∧
      0 ≤ (storeWithdrawal sampleWithdrawalCols).fee) ∧
    0 ≤ (AccountBalanceRow.mk 2 0 0 0 0).main_balance :=
  ⟨monetary_check_bounds.1 sampleDeposit (by decide),
   monetary_check_bounds.2.2.1 (storeWithdrawal sampleWithdrawalCols) (by decide),
   (monetary_check_bounds.2.2.2.2 (AccountBalanceRow.mk 2 0 0 0 0) (by decide)).1⟩

/-- C6: the `withdrawal_accounts` CHECK (identical in both schema
generations) forces the populated fields to match the declared type:
a crypto account without `crypto_address` is rejected, a bank account
without `account_number` or `account_holder_name` is rejected, a paypal
account without `paypal_email` is rejected, any account type outside
`bank`/`crypto`/`paypal` is rejected, and every accepted row has the
fields its type requires. -/
theorem withdrawal_accounts_type_fields (r : WithdrawalAccountRow) :
    (r.account_type = "crypto" → r.crypto_address = none →
        withdrawal_accounts_check r = false) ∧
    (r.account_type = "bank" →
        (r.account_number = none ∨ r.account_holder_name = none) →
        withdrawal_accounts_check r = false) ∧
    (r.account_type = "paypal" → r.paypal_email = none →
        withdrawal_accounts_check r = false) ∧
    ((["bank", "crypto", "paypal"].contains r.account_type) = false →
        withdrawal_accounts_check r = false) ∧
    (withdrawal_accounts_check r = true →
        (r.account_type = "crypto" →
            r.crypto_address.isSome ∧ r.crypto_type.isSome) ∧
        (r.account_type = "bank" →
            r.account_number.isSome ∧ r.account_holder_name.isSome) ∧
        (r.account_type = "paypal" → r.paypal_email.isSome)) := by
  refine ⟨?_, ?_, ?_, ?_, ?_⟩
  · intro ht ha
    simp [withdrawal_accounts_check, withdrawal_accounts_case_check, ht, ha]
  · intro ht ha
    rcases ha with ha | ha <;>
      simp [withdrawal_accounts_check, withdrawal_accounts_case_check, ht, ha]
  · intro ht ha
    simp [withdrawal_accounts_check, withdrawal_accounts_case_check, ht, ha]
  · intro ht
    unfold withdrawal_accounts_check
    rw [ht]
    rfl
  · intro h
    simp only [withdrawal_accounts_check, Bool.and_eq_true] at h
    have hcase := h.2
    refine ⟨?_, ?_, ?_⟩
    · intro ht
      simp only [withdrawal_accounts_case_check, ht] at hcase
      simpa using hcase
    · intro ht
      simp only [withdrawal_accounts_case_check, ht] at hcase
      simpa using hcase
    · intro ht
      simp only [withdrawal_accounts_case_check, ht] at hcase
      simpa using hcase

/-- Witness for C6: the sample crypto account without an address fails
the CHECK, and the accepted sample bank account carries its required
fields. -/
theorem withdrawal_accounts_type_fields_witness :
    withdrawal_accounts_check cryptoNoAddress = false ∧
    (bankAccountOk.account_number.isSome ∧
      bankAccountOk.account_holder_name.isSome) :=
  ⟨(withdrawal_accounts_type_fields cryptoNoAddress).1 (by decide) (by decide),
   ((withdrawal_accounts_type_fields bankAccountOk).2.2.2.2 (by decide)).2.1
     (by decide)⟩

/-- C7: for every database state, the view's `pending_deposits` field is
the number of `deposits` rows whose status is `pending` at read time. -/
theorem dashboard_pending_deposits_count (db : Db) :
    (admin_dashboard_summary db).pending_deposits =
      (db.deposits.filter (fun d => d.status == "pending")).length := by
  simp [admin_dashboard_summary, List.countP_eq_length_filter]

/-- C8: on dashboard load with an authenticated user, a role check that
does not confirm the admin role (null or false `roleData`) signs out,
toasts, and redirects to `/admin/login` with neither the stats fetch nor
the admin content reached; a confirming role check proceeds to fetch the
summary statistics. -/
theorem admin_access_requires_role (u : AuthUser) (rd : Option Bool) :
    (rd ≠ some true →
        checkAdminAccess (some u) rd =
          { navigatedTo := some "/admin/login", signedOut := true,
            unauthorizedToast := true, isAdmin := false, fetchedStats := false }) ∧
    (checkAdminAccess (some u) (some true)).fetchedStats = true ∧
    (checkAdminAccess (some u) (some true)).signedOut = false ∧
    (checkAdminAccess (some u) (some true)).isAdmin = true := by
  refine ⟨?_, rfl, rfl, rfl⟩
  intro h
  have hb : (rd == some true) = false := by
    cases rd with
    | none => rfl
    | some b =>
        cases b with
        | false => rfl
        | true => exact absurd rfl h
  simp [checkAdminAccess, hb]

/-- Witness for C8: a signed-in user with a false role check is signed
out and redirected; a confirmed admin reaches the stats fetch. -/
theorem admin_access_requires_role_witness :
    checkAdminAccess (some (AuthUser.mk 2)) (some false) =
      { navigatedTo := some "/admin/login", signedOut := true,
        unauthorizedToast := true, isAdmin := false, fetchedStats := false } ∧
    (checkAdminAccess (some (AuthUser.mk 1)) (some true)).fetchedStats = true :=
  ⟨(admin_access_requires_role (AuthUser.mk 2) (some false)).1 (by decide),
   (admin_access_requires_role (AuthUser.mk 1) (some true)).2.1⟩

/-- C9: when the auth signup succeeds with a user but the referral
lookup or the referral insert fails, the failure is only logged: the
handler still shows the success toast, navigates to `/login`, and
surfaces no error. -/
theorem signup_referral_failure_swallowed
    (u : AuthUser) (code : String) (lookup : Except String (Option UserId))
    (ins : Except String Unit) (rid : UserId) (msg : String)
    (hcode : jsTrim code ≠ "")
    (hfail : lookup = Except.error msg ∨
        (lookup = Except.ok (some rid) ∧ ins = Except.error msg)) :
    (handleSignup true (Except.ok (some u)) code lookup ins).referralErrorLogged = true ∧
    (handleSignup true (Except.ok (some u)) code lookup ins).successToast = true ∧
    (handleSignup true (Except.ok (some u)) code lookup ins).navigatedTo = some "/login" ∧
    (handleSignup true (Except.ok (some u)) code lookup ins).errorToast = none := by
  rcases hfail with h | ⟨h1, h2⟩
  · subst h
    simp [handleSignup, hcode, SignupOutcome.start]
  · subst h1
    subst h2
    simp [handleSignup, hcode, SignupOutcome.start]

/-- Witness for C9: signup with referral code `REF123` whose lookup
throws is still reported as a success and navigates to `/login`. -/
theorem signup_referral_failure_swallowed_witness :
    (handleSignup true (Except.ok (some (AuthUser.mk 2))) "REF123"
        (Except.error "lookup failed") (Except.ok ())).referralErrorLogged = true ∧
    (handleSignup true (Except.ok (some (AuthUser.mk 2))) "REF123"
        (Except.error "lookup failed") (Except.ok ())).successToast = true ∧
    (handleSignup true (Except.ok (some (AuthUser.mk 2))) "REF123"
        (Except.error "lookup failed") (Except.ok ())).navigatedTo = some "/login" ∧
    (handleSignup true (Except.ok (some (AuthUser.mk 2))) "REF123"
        (Except.error "lookup failed") (Except.ok ())).errorToast = none :=
  signup_referral_failure_swallowed (AuthUser.mk 2) "REF123"
    (Except.error "lookup failed") (Except.ok ()) 1 "lookup failed"
    (by decide) (Or.inl rfl)

/-- C10: submitting the signup form without agreeing to the terms
returns before any external call: no auth signup, no profile update, no
referral lookup or insert, no navigation, and only the terms error toast
is shown. -/
theorem signup_terms_gate (authResult : Except String (Option AuthUser))
    (code : String) (lookup : Except String (Option UserId))
    (ins : Except String Unit) :
    (handleSignup false authResult code lookup ins).termsErrorToast = true ∧
    (handleSignup false authResult code lookup ins).authSignUpCalled = false ∧
    (handleSignup false authResult code lookup ins).profileUpdateCalled = false ∧
    (handleSignup false authResult code lookup ins).referralLookupCalled = false ∧
    (handleSignup false authResult code lookup ins).referralInsertCalled = false ∧
    (handleSignup false authResult code lookup ins).successToast = false ∧
    (handleSignup false authResult code lookup ins).errorToast = none ∧
    (handleSignup false authResult code lookup ins).navigatedTo = none :=
  ⟨rfl, rfl, rfl, rfl, rfl, rfl, rfl, rfl⟩

end Whitestones
